import Mathlib

/-!
Verification of the semantic-sql-service retrieval engine specification
against the repository sources: the persistence migrations (SQL DDL), the
frontend data models (TypeScript), the documented management API contract,
and — where the backend executor itself is not in the tree — definitions
modelled from the specification text.
-/

namespace SemanticSql

/-! ## Persistence DDL model

Shallow embedding of src/scripts/migration.sql and
src/scripts/archive/migration_unique_constraints.sql as a list of DDL
statements. Each statement is transcribed from the SQL source.
-/

inductive DDLStmt where
  | addSlugColumn (table : String)
  | truncate (table : String)
  | createUniqueIndex (indexName : String) (table : String) (cols : List String)
  | setNotNull (table : String) (col : String)
  deriving DecidableEq, Repr

/-- Transcription of src/scripts/migration.sql: add slug columns, truncate,
then one global unique index on (slug) plus NOT NULL per entity table. -/
def migrationSql : List DDLStmt := [
  .addSlugColumn "table_nodes",
  .addSlugColumn "column_nodes",
  .addSlugColumn "semantic_metrics",
  .addSlugColumn "semantic_synonyms",
  .addSlugColumn "column_context_rules",
  .addSlugColumn "low_cardinality_values",
  .addSlugColumn "golden_sql",
  .truncate "golden_sql",
  .truncate "low_cardinality_values",
  .truncate "column_context_rules",
  .truncate "semantic_synonyms",
  .truncate "semantic_metrics",
  .truncate "schema_edges",
  .truncate "column_nodes",
  .truncate "table_nodes",
  .truncate "datasources",
  .createUniqueIndex "idx_table_nodes_slug" "table_nodes" ["slug"],
  .setNotNull "table_nodes" "slug",
  .createUniqueIndex "idx_column_nodes_slug" "column_nodes" ["slug"],
  .setNotNull "column_nodes" "slug",
  .createUniqueIndex "idx_semantic_metrics_slug" "semantic_metrics" ["slug"],
  .setNotNull "semantic_metrics" "slug",
  .createUniqueIndex "idx_semantic_synonyms_slug" "semantic_synonyms" ["slug"],
  .setNotNull "semantic_synonyms" "slug",
  .createUniqueIndex "idx_column_context_rules_slug" "column_context_rules" ["slug"],
  .setNotNull "column_context_rules" "slug",
  .createUniqueIndex "idx_low_cardinality_values_slug" "low_cardinality_values" ["slug"],
  .setNotNull "low_cardinality_values" "slug",
  .createUniqueIndex "idx_golden_sql_slug" "golden_sql" ["slug"],
  .setNotNull "golden_sql" "slug"]

/-- The seven slug-carrying entity tables of migration.sql
(tables, columns, metrics, synonyms, context rules, categorical values,
example queries). -/
def slugEntityTables : List String :=
  ["table_nodes", "column_nodes", "semantic_metrics", "semantic_synonyms",
   "column_context_rules", "low_cardinality_values", "golden_sql"]

/-- Transcription of src/scripts/archive/migration_unique_constraints.sql. -/
def migrationUniqueConstraints : List DDLStmt := [
  .createUniqueIndex "idx_table_nodes_datasource_physical_name_unique"
    "table_nodes" ["datasource_id", "physical_name"],
  .createUniqueIndex "idx_column_nodes_table_name_unique"
    "column_nodes" ["table_id", "name"],
  .createUniqueIndex "idx_semantic_synonyms_term_target_unique"
    "semantic_synonyms" ["term", "target_type", "target_id"],
  .createUniqueIndex "idx_low_cardinality_values_column_value_unique"
    "low_cardinality_values" ["column_id", "value_raw"],
  .createUniqueIndex "idx_schema_edges_columns_unique"
    "schema_edges" ["source_column_id", "target_column_id"]]

/-- Row-level meaning of a global unique index on (slug): over rows
(parent id, slug), any two rows carry distinct slugs. -/
def globallySlugUnique (rows : List (Nat × String)) : Prop :=
  rows.Pairwise (fun a b => a.2 ≠ b.2)

/-- Row-level meaning of slug uniqueness only within the parent scope:
two rows under the same parent carry distinct slugs. -/
def scopedSlugUnique (rows : List (Nat × String)) : Prop :=
  rows.Pairwise (fun a b => a.1 = b.1 → a.2 ≠ b.2)

instance (rows : List (Nat × String)) : Decidable (globallySlugUnique rows) :=
  inferInstanceAs (Decidable (rows.Pairwise _))

instance (rows : List (Nat × String)) : Decidable (scopedSlugUnique rows) :=
  inferInstanceAs (Decidable (rows.Pairwise _))

/-- Row stored in schema_edges, keyed by the ordered column pair. -/
structure SchemaEdgeRow where
  id : Nat
  source_column_id : Nat
  target_column_id : Nat
  deriving DecidableEq, Repr

/-- Meaning of the unique index idx_schema_edges_columns_unique on
schema_edges (source_column_id, target_column_id): no two stored rows share
the ordered column pair. -/
def edgesSatisfyUniqueIndex (edges : List SchemaEdgeRow) : Prop :=
  edges.Pairwise (fun a b =>
    a.source_column_id = b.source_column_id →
    a.target_column_id = b.target_column_id → False)

instance (edges : List SchemaEdgeRow) : Decidable (edgesSatisfyUniqueIndex edges) :=
  inferInstanceAs (Decidable (edges.Pairwise _))

/-! ## Relationship and synonym value sets

From the retrieval frontend models
(src/tools/semantic-sql-frontend/src/app/core/layout/main-layout.component.ts),
the admin frontend models (admin.models.ts), the create-relationship dialog,
and the documented management API contract (src/docs/API_DOCUMENTATION.md).
-/

/-- RelationshipType enum of the retrieval frontend models. -/
inductive RelationshipType where
  | ONE_TO_ONE
  | ONE_TO_MANY
  | MANY_TO_ONE
  | MANY_TO_MANY
  deriving DecidableEq, Repr

def RelationshipType.value : RelationshipType → String
  | .ONE_TO_ONE => "ONE_TO_ONE"
  | .ONE_TO_MANY => "ONE_TO_MANY"
  | .MANY_TO_ONE => "MANY_TO_ONE"
  | .MANY_TO_MANY => "MANY_TO_MANY"

/-- The relationship_type union of the admin frontend Relationship model
(admin.models.ts): ONE_TO_ONE | ONE_TO_MANY | MANY_TO_MANY. -/
def adminRelationshipTypeValues : List String :=
  ["ONE_TO_ONE", "ONE_TO_MANY", "MANY_TO_MANY"]

/-- The option values of the create-relationship dialog
(create-relationship-dialog component template). -/
def relationshipDialogOptions : List String :=
  ["ONE_TO_ONE", "ONE_TO_MANY", "MANY_TO_MANY"]

/-- The relationship_type values documented for
POST /api/v1/ontology/relationships in API_DOCUMENTATION.md. -/
def apiRelationshipTypes : List String :=
  ["ONE_TO_ONE", "ONE_TO_MANY", "MANY_TO_MANY"]

/-- The string values of the RelationshipType enum of the retrieval
frontend models. -/
def relationshipTypeValues : List String :=
  ["ONE_TO_ONE", "ONE_TO_MANY", "MANY_TO_ONE", "MANY_TO_MANY"]

/-- SchemaEdge per the retrieval frontend model: relationship_type ranges
over the RelationshipType enum. -/
structure SchemaEdge where
  id : String
  source_column_id : String
  target_column_id : String
  relationship_type : RelationshipType
  is_inferred : Bool

/-- The stored edge documented in the Discovery API guide as the response
of POST /edges (ordini_table.cliente_id_col to
clienti_table.cliente_id_pk_col): a stored relationship carrying the tag
MANY_TO_ONE with is_inferred false. -/
def discoveryGuideStoredEdge : SchemaEdge :=
  { id := "uuid"
    source_column_id := "uuid"
    target_column_id := "uuid"
    relationship_type := .MANY_TO_ONE
    is_inferred := false }

/-- SynonymTargetType enum of the retrieval frontend models. -/
inductive SynonymTargetType where
  | TABLE
  | COLUMN
  | METRIC
  | VALUE
  deriving DecidableEq, Repr

def SynonymTargetType.value : SynonymTargetType → String
  | .TABLE => "TABLE"
  | .COLUMN => "COLUMN"
  | .METRIC => "METRIC"
  | .VALUE => "VALUE"

/-- The target_type values documented for synonym creation in
API_DOCUMENTATION.md (target_type possibili). -/
def apiSynonymTargetTypes : List String :=
  ["TABLE", "COLUMN", "METRIC", "VALUE"]

/-- SemanticSynonym per the retrieval frontend model: a term mapped to a
target entity by target kind plus target id. -/
structure SemanticSynonym where
  id : String
  term : String
  target_type : SynonymTargetType
  target_id : String

/-! ## Hybrid search executor: Reciprocal Rank Fusion and pagination

The backend executor is not under src (only its HTTP clients, the
PaginatedResponse shape, and the Discovery API guide are), so fusion and
pagination are modelled from the specification text.
-/

/-- Modelled from the spec: the RRF smoothing constant k, typically 60.
The backend search executor is missing from src. -/
def rrfK : ℚ := 60

/-- The 1-based rank of an id in a ranked branch list, none if absent. -/
def rrfRank : List Nat → Nat → Option Nat
  | [], _ => none
  | x :: xs, id => if x = id then some 1 else (rrfRank xs id).map (· + 1)

/-- Modelled from the spec: the contribution 1/(k + rank) of one branch to
the fused score; an id absent from the branch contributes 0. -/
def rrfContrib (branch : List Nat) (id : Nat) : ℚ :=
  match rrfRank branch id with
  | some r => 1 / (rrfK + r)
  | none => 0

/-- Modelled from the spec: fused score of an id over the vector branch and
the lexical branch. -/
def rrfScore (vec lex : List Nat) (id : Nat) : ℚ :=
  rrfContrib vec id + rrfContrib lex id

/-- Candidate ids appearing in either branch, without duplicates. -/
def rrfCandidates (vec lex : List Nat) : List Nat :=
  (vec ++ lex).dedup

/-- Ordering of fused results: descending score, ties broken by ascending
id so that the output is deterministic. -/
def fuseOrder (a b : Nat × ℚ) : Prop :=
  b.2 < a.2 ∨ (a.2 = b.2 ∧ a.1 ≤ b.1)

instance : DecidableRel fuseOrder := fun a b =>
  inferInstanceAs (Decidable (b.2 < a.2 ∨ (a.2 = b.2 ∧ a.1 ≤ b.1)))

instance : IsTotal (Nat × ℚ) fuseOrder where
  total a b := by
    rcases lt_trichotomy a.2 b.2 with h | h | h
    · exact Or.inr (Or.inl h)
    · rcases Nat.le_total a.1 b.1 with h1 | h1
      · exact Or.inl (Or.inr ⟨h, h1⟩)
      · exact Or.inr (Or.inr ⟨h.symm, h1⟩)
    · exact Or.inl (Or.inl h)

instance : IsTrans (Nat × ℚ) fuseOrder where
  trans a b c hab hbc := by
    rcases hab with hab | ⟨hab, hab1⟩
    · rcases hbc with hbc | ⟨hbc, _⟩
      · exact Or.inl (hbc.trans hab)
      · exact Or.inl (hbc ▸ hab)
    · rcases hbc with hbc | ⟨hbc, hbc1⟩
      · exact Or.inl (by rw [hab]; exact hbc)
      · exact Or.inr ⟨hab.trans hbc, hab1.trans hbc1⟩

/-- Modelled from the spec: Reciprocal Rank Fusion of the two ranked
branch lists, sorted by descending fused score with id tie-break.
The backend search executor is missing from src. -/
def fuse (vec lex : List Nat) : List (Nat × ℚ) :=
  List.insertionSort fuseOrder
    ((rrfCandidates vec lex).map (fun id => (id, rrfScore vec lex id)))

/-- The paginated response shape of the Discovery API
(PaginatedResponse in discovery.service.ts). -/
structure RankedPage where
  items : List (Nat × ℚ)
  total : Nat
  page : Nat
  limit : Nat
  has_next : Bool
  has_prev : Bool
  deriving DecidableEq, Repr

/-- Modelled from the spec: results are sliced to
[page*limit, (page+1)*limit) and the executor reports total count,
has-next, has-prev alongside the page. The backend executor is missing
from src. -/
def paginate (ranking : List (Nat × ℚ)) (page limit : Nat) : RankedPage :=
  { items := (ranking.drop (page * limit)).take limit
    total := ranking.length
    page := page
    limit := limit
    has_next := decide ((page + 1) * limit < ranking.length)
    has_prev := decide (0 < page) }

/-- One hybrid search call: fuse the two branch lists, then paginate. -/
def searchPage (vec lex : List Nat) (page limit : Nat) : RankedPage :=
  paginate (fuse vec lex) page limit

/-! ## Schema graph path finder

The backend path finder is not under src (only the GraphPathRequest and
GraphPathResult shapes and the playground client are), so it is modelled
from the specification text of §4.3.
-/

structure TableNode where
  id : Nat
  slug : String
  datasource_id : Nat
  deriving DecidableEq, Repr

structure ColumnNode where
  id : Nat
  table_id : Nat
  deriving DecidableEq, Repr

/-- Full schema-edge record used for traversal. -/
structure EdgeRec where
  id : Nat
  source_column_id : Nat
  target_column_id : Nat
  relationship_type : RelationshipType
  is_inferred : Bool
  deriving DecidableEq, Repr

structure GraphStore where
  tables : List TableNode
  columns : List ColumnNode
  edges : List EdgeRec
  deriving Repr

/-- Scope check: with no datasource scope every table qualifies, otherwise
the table must belong to the scoped datasource. -/
def inScope (scope : Option Nat) (t : TableNode) : Bool :=
  match scope with
  | none => true
  | some ds => t.datasource_id == ds

/-- Resolve a table slug within the optional datasource scope. -/
def resolveTable (store : GraphStore) (scope : Option Nat) (slug : String) :
    Option TableNode :=
  store.tables.find? (fun t => t.slug == slug && inScope scope t)

/-- The owning table of a column id, when the column exists. -/
def columnTable (store : GraphStore) (colId : Nat) : Option Nat :=
  (store.columns.find? (fun c => c.id == colId)).map (fun c => c.table_id)

/-- Whether a table id belongs to the traversal scope. -/
def tableInScope (store : GraphStore) (scope : Option Nat) (tid : Nat) : Bool :=
  store.tables.any (fun t => t.id == tid && inScope scope t)

/-- One traversed hop: traversal direction (from_table to to_table) plus the
original edge direction, relationship type and inferred flag. -/
structure RelationshipHop where
  edge_id : Nat
  from_table : Nat
  to_table : Nat
  source_column_id : Nat
  target_column_id : Nat
  relationship_type : RelationshipType
  is_inferred : Bool
  deriving DecidableEq, Repr

/-- Modelled from the spec: direction-agnostic table-to-table adjacency,
derived by projecting edges through the owning tables of their columns;
each hop retains the original edge direction and tags. -/
def edgeHopsFrom (store : GraphStore) (scope : Option Nat) (t : Nat) :
    List RelationshipHop :=
  store.edges.filterMap (fun e =>
    match columnTable store e.source_column_id, columnTable store e.target_column_id with
    | some ts, some tt =>
        if ts == t && tableInScope store scope tt then
          some ⟨e.id, ts, tt, e.source_column_id, e.target_column_id,
                e.relationship_type, e.is_inferred⟩
        else if tt == t && tableInScope store scope ts then
          some ⟨e.id, tt, ts, e.source_column_id, e.target_column_id,
                e.relationship_type, e.is_inferred⟩
        else none
    | _, _ => none)

/-- Modelled from the spec: bounded enumeration of all simple paths from the
current table to the target, with fuel equal to the remaining depth and the
list of already visited tables. -/
def simplePathsAux (store : GraphStore) (scope : Option Nat) (target : Nat) :
    Nat → Nat → List Nat → List (List RelationshipHop)
  | 0, _, _ => []
  | fuel + 1, current, visited =>
      ((edgeHopsFrom store scope current).map (fun h =>
        if h.to_table ∈ visited then []
        else if h.to_table = target then [[h]]
        else
          (simplePathsAux store scope target fuel h.to_table
            (h.to_table :: visited)).map (fun p => h :: p))).flatten

inductive FindError where
  | notFound (slug : String)
  | invalidArgument (msg : String)
  deriving DecidableEq, Repr

/-- The GraphPathResult shape of discovery.service.ts. -/
structure PathResult where
  source_table : String
  target_table : String
  paths : List (List RelationshipHop)
  total_paths : Nat
  deriving DecidableEq, Repr

/-- Modelled from the spec: findPaths of §4.3. Either slug not resolvable
within scope is a not-found error; source equal to target yields the single
empty path; otherwise all simple paths up to maxDepth are enumerated.
The backend path finder is missing from src. -/
def findPaths (store : GraphStore) (scope : Option Nat)
    (sourceSlug targetSlug : String) (maxDepth : Nat) :
    Except FindError PathResult :=
  match resolveTable store scope sourceSlug with
  | none => .error (.notFound sourceSlug)
  | some src =>
    match resolveTable store scope targetSlug with
    | none => .error (.notFound targetSlug)
    | some tgt =>
      if src.id = tgt.id then
        .ok ⟨sourceSlug, targetSlug, [[]], 1⟩
      else
        let ps := simplePathsAux store scope tgt.id maxDepth src.id [src.id]
        .ok ⟨sourceSlug, targetSlug, ps, ps.length⟩

/-! ## Content hasher and embedding cache

The SearchableMixin with update_embedding_if_needed is not under src (only
the embedding_hash migration, the ARCHITECTURE.md flow and the style-guide
reference implementation of EmbeddingService.generate_embedding are), so
ensureEmbedding is modelled from the specification text of §4.1; the
external generator is a parameter so that invocations can be counted.
-/

abbrev Embedding := List ℚ

structure SEntity where
  search_text : String
  embedding : Option Embedding
  embedding_hash : Option Nat
  deriving DecidableEq, Repr

structure EnsureResult where
  entity : SEntity
  embedding : Option Embedding
  updated : Bool
  generatorCalls : Nat
  deriving DecidableEq, Repr

def zeroEmbedding (dims : Nat) : Embedding :=
  List.replicate dims 0

/-- Empty or whitespace-only search text (character-level model of
"not text or not text.strip()"). -/
def blank (s : String) : Bool :=
  s.data.all (fun c => c.isWhitespace)

/-- Character-level model of text.strip(): leading and trailing whitespace
removed. -/
def stripText (s : String) : String :=
  ⟨((s.data.dropWhile Char.isWhitespace).reverse.dropWhile
      Char.isWhitespace).reverse⟩

/-- Modelled from the spec: ensureEmbedding of §4.1, with the hash-first
ordering of the ARCHITECTURE.md mixin flow. A fresh fingerprint with a
present embedding returns the stored embedding with updated false and no
generator call; on a cache miss, blank text short-circuits to the zero
embedding instead of invoking the generator; otherwise the generator is
invoked once, success stores the vector and the new fingerprint, failure
leaves the entity state unchanged. The backend mixin is missing from src. -/
def ensureEmbedding (hash : String → Nat)
    (gen : String → Except Unit Embedding) (dims : Nat) (e : SEntity) :
    EnsureResult :=
  let fp := hash e.search_text
  if e.embedding_hash == some fp && e.embedding.isSome then
    { entity := e, embedding := e.embedding, updated := false
      generatorCalls := 0 }
  else if blank e.search_text then
    { entity := { e with embedding := some (zeroEmbedding dims),
                         embedding_hash := some fp }
      embedding := some (zeroEmbedding dims), updated := true
      generatorCalls := 0 }
  else
    match gen e.search_text with
    | .ok v =>
        { entity := { e with embedding := some v, embedding_hash := some fp }
          embedding := some v, updated := true, generatorCalls := 1 }
    | .error _ =>
        { entity := e, embedding := e.embedding, updated := false
          generatorCalls := 1 }

/-- Total external generator invocations across two consecutive
ensureEmbedding calls on the same entity. -/
def ensureEmbeddingTwiceCalls (hash : String → Nat)
    (gen : String → Except Unit Embedding) (dims : Nat) (e : SEntity) : Nat :=
  let r1 := ensureEmbedding hash gen dims e
  let r2 := ensureEmbedding hash gen dims r1.entity
  r1.generatorCalls + r2.generatorCalls

/-- EmbeddingService.generate_embedding as given by the style-guide
reference implementation in the repository docs: blank text returns the
zero vector, and any exception from the external client is caught and the
zero vector is returned instead of propagating the failure. -/
def generate_embedding (client : String → Except Unit Embedding)
    (dims : Nat) (text : String) : Embedding :=
  if blank text then zeroEmbedding dims
  else
    match client (stripText text) with
    | .ok v => v
    | .error _ => zeroEmbedding dims

/-- The cache mixin composed with the in-repo generate_embedding, which
never reports failure to its caller. -/
def ensureEmbeddingWithService (hash : String → Nat)
    (client : String → Except Unit Embedding) (dims : Nat) (e : SEntity) :
    EnsureResult :=
  ensureEmbedding hash (fun t => .ok (generate_embedding client dims t)) dims e

/-! ## Helper lemmas -/

theorem rrfRank_exists_of_mem {branch : List Nat} {id : Nat}
    (h : id ∈ branch) : ∃ r, rrfRank branch id = some r := by
  induction branch with
  | nil => cases h
  | cons x xs ih =>
    by_cases hx : x = id
    · exact ⟨1, by simp [rrfRank, hx]⟩
    · have hmem : id ∈ xs := by
        rcases List.mem_cons.mp h with h1 | h1
        · exact absurd h1.symm hx
        · exact h1
      rcases ih hmem with ⟨r, hr⟩
      exact ⟨r + 1, by simp [rrfRank, hx, hr]⟩

theorem rrfContrib_pos {branch : List Nat} {id : Nat}
    (h : id ∈ branch) : 0 < rrfContrib branch id := by
  rcases rrfRank_exists_of_mem h with ⟨r, hr⟩
  unfold rrfContrib
  rw [hr]
  have h60 : (0 : ℚ) < rrfK + r := by
    unfold rrfK
    positivity
  positivity

theorem rrfContrib_nonneg (branch : List Nat) (id : Nat) :
    0 ≤ rrfContrib branch id := by
  unfold rrfContrib
  cases hr : rrfRank branch id with
  | none => exact le_refl 0
  | some r =>
    have h60 : (0 : ℚ) < rrfK + r := by
      unfold rrfK
      positivity
    positivity

theorem mem_fuse_iff {vec lex : List Nat} {p : Nat × ℚ} :
    p ∈ fuse vec lex ↔
      p ∈ (rrfCandidates vec lex).map (fun id => (id, rrfScore vec lex id)) :=
  (List.perm_insertionSort fuseOrder _).mem_iff

/-! ## Claim theorems -/

/-- Claim C1: for a fixed pair of vector-branch and lexical-branch ranked
lists, the fused score of each id is the sum over the branches containing
it of 1/(k + rank) with k = 60 (an absent branch contributes 0); every id
of either branch appears in the fused output with that score, an id
present in at least one branch has a strictly positive score, and the
output is ordered by descending fused score. -/
theorem rrf_fusion_scores_and_order (vec lex : List Nat) :
    rrfK = 60 ∧
    (∀ branch : List Nat, ∀ id r, rrfRank branch id = some r →
       rrfContrib branch id = 1 / (60 + (r : ℚ))) ∧
    (∀ branch : List Nat, ∀ id, rrfRank branch id = none →
       rrfContrib branch id = 0) ∧
    (∀ p ∈ fuse vec lex,
       p.2 = rrfContrib vec p.1 + rrfContrib lex p.1) ∧
    (∀ id, id ∈ vec ++ lex →
       (id, rrfScore vec lex id) ∈ fuse vec lex ∧ 0 < rrfScore vec lex id) ∧
    (fuse vec lex).Pairwise (fun a b => b.2 ≤ a.2) := by
  refine ⟨rfl, ?_, ?_, ?_, ?_, ?_⟩
  · intro branch id r hr
    unfold rrfContrib
    rw [hr]
    rfl
  · intro branch id hr
    unfold rrfContrib
    rw [hr]
  · intro p hp
    rcases List.mem_map.mp (mem_fuse_iff.mp hp) with ⟨id, _, rfl⟩
    rfl
  · intro id hid
    constructor
    · exact mem_fuse_iff.mpr
        (List.mem_map_of_mem _ (List.mem_dedup.mpr hid))
    · rcases List.mem_append.mp hid with h | h
      · exact add_pos_of_pos_of_nonneg (rrfContrib_pos h)
          (rrfContrib_nonneg lex id)
      · exact add_pos_of_nonneg_of_pos (rrfContrib_nonneg vec id)
          (rrfContrib_pos h)
  · have hs := List.sorted_insertionSort fuseOrder
      ((rrfCandidates vec lex).map (fun id => (id, rrfScore vec lex id)))
    refine hs.imp ?_
    rintro a b (h | ⟨h, _⟩)
    · exact h.le
    · exact h.symm.le

/-- Claim C1 witness: an id present in the lexical branch only still
appears in the fused output with a strictly positive score. -/
theorem rrf_fusion_scores_and_order_witness :
    (40, rrfScore [10, 20, 30] [20, 30, 40] 40) ∈ fuse [10, 20, 30] [20, 30, 40] ∧
    0 < rrfScore [10, 20, 30] [20, 30, 40] 40 :=
  (rrf_fusion_scores_and_order [10, 20, 30] [20, 30, 40]).2.2.2.2.1 40 (by decide)

/-- Claim C7: the page returned by the search executor is exactly the slice
[page*limit, (page+1)*limit) of the fused ranking; total reports the length
of the fused ranking and the has-next and has-prev flags are consistent
with that total. -/
theorem search_pagination_slice (vec lex : List Nat) (page limit : Nat) :
    (searchPage vec lex page limit).items =
      ((fuse vec lex).drop (page * limit)).take limit ∧
    (searchPage vec lex page limit).items.length =
      min limit ((searchPage vec lex page limit).total - page * limit) ∧
    (∀ i : Nat, i < limit →
       (searchPage vec lex page limit).items[i]? =
         (fuse vec lex)[page * limit + i]?) ∧
    (searchPage vec lex page limit).total = (fuse vec lex).length ∧
    ((searchPage vec lex page limit).has_next = true ↔
       (page + 1) * limit < (searchPage vec lex page limit).total) ∧
    ((searchPage vec lex page limit).has_prev = true ↔ 0 < page) := by
  refine ⟨rfl, ?_, ?_, rfl, ?_, ?_⟩
  · show (((fuse vec lex).drop (page * limit)).take limit).length =
      min limit ((fuse vec lex).length - page * limit)
    rw [List.length_take, List.length_drop]
  · intro i hi
    show (((fuse vec lex).drop (page * limit)).take limit)[i]? = _
    rw [List.getElem?_take_of_lt hi, List.getElem?_drop]
  · show decide ((page + 1) * limit < (fuse vec lex).length) = true ↔ _
    simp [searchPage, paginate]
  · show decide (0 < page) = true ↔ 0 < page
    simp

/-- Claim C7 witness: the first slot of page 0 with limit 1 is the head of
the fused ranking. -/
theorem search_pagination_slice_witness :
    (searchPage [10, 20] [20] 0 1).items[0]? = (fuse [10, 20] [20])[0]? := by
  have h := (search_pagination_slice [10, 20] [20] 0 1).2.2.1 0 (by decide)
  simpa using h

/-- Claim C2: the relationship-cardinality tag of every SchemaEdge is one
of exactly the four values one-to-one, one-to-many, many-to-one and
many-to-many — the RelationshipType enum of the retrieval frontend model —
and many-to-one is an admissible tag of a stored relationship, as
witnessed by the stored edge documented in the Discovery API guide
response of POST /edges. -/
theorem relationship_type_four_values :
    (∀ e : SchemaEdge,
       e.relationship_type = .ONE_TO_ONE ∨ e.relationship_type = .ONE_TO_MANY ∨
       e.relationship_type = .MANY_TO_ONE ∨ e.relationship_type = .MANY_TO_MANY) ∧
    (∀ t : RelationshipType, t.value ∈ relationshipTypeValues) ∧
    (∀ v ∈ relationshipTypeValues, ∃ t : RelationshipType, t.value = v) ∧
    relationshipTypeValues.Nodup ∧ relationshipTypeValues.length = 4 ∧
    discoveryGuideStoredEdge.relationship_type = .MANY_TO_ONE ∧
    (∃ e : SchemaEdge, e.relationship_type = .MANY_TO_ONE) := by
  refine ⟨fun e => ?_, fun t => ?_, ?_, by decide, by decide, rfl,
    ⟨discoveryGuideStoredEdge, rfl⟩⟩
  · cases h : e.relationship_type <;> simp
  · cases t <;> simp [RelationshipType.value, relationshipTypeValues]
  · intro v hv
    simp only [relationshipTypeValues, List.mem_cons, List.mem_singleton,
      List.not_mem_nil, or_false] at hv
    rcases hv with rfl | rfl | rfl | rfl
    · exact ⟨.ONE_TO_ONE, rfl⟩
    · exact ⟨.ONE_TO_MANY, rfl⟩
    · exact ⟨.MANY_TO_ONE, rfl⟩
    · exact ⟨.MANY_TO_MANY, rfl⟩

/-- Claim C2 witness: many-to-one is realised by a RelationshipType
constructor. -/
theorem relationship_type_four_values_witness :
    ∃ t : RelationshipType, t.value = "MANY_TO_ONE" :=
  relationship_type_four_values.2.2.1 "MANY_TO_ONE" (by decide)

/-- Claim C8: every SemanticSynonym maps its term to a target entity by
target kind plus target id, and the target kind ranges over exactly the
four kinds TABLE, COLUMN, METRIC and VALUE — matching the documented
target_type value set of the synonym API. -/
theorem synonym_target_four_kinds :
    (∀ s : SemanticSynonym,
       s.target_type = .TABLE ∨ s.target_type = .COLUMN ∨
       s.target_type = .METRIC ∨ s.target_type = .VALUE) ∧
    (∀ t : SynonymTargetType, t.value ∈ apiSynonymTargetTypes) ∧
    (∀ v ∈ apiSynonymTargetTypes, ∃ t : SynonymTargetType, t.value = v) ∧
    apiSynonymTargetTypes.Nodup ∧ apiSynonymTargetTypes.length = 4 := by
  refine ⟨fun s => ?_, fun t => ?_, ?_, by decide, by decide⟩
  · cases h : s.target_type <;> simp
  · cases t <;> simp [SynonymTargetType.value, apiSynonymTargetTypes]
  · intro v hv
    simp only [apiSynonymTargetTypes, List.mem_cons, List.mem_singleton,
      List.not_mem_nil, or_false] at hv
    rcases hv with rfl | rfl | rfl | rfl
    · exact ⟨.TABLE, rfl⟩
    · exact ⟨.COLUMN, rfl⟩
    · exact ⟨.METRIC, rfl⟩
    · exact ⟨.VALUE, rfl⟩

/-- Claim C8 witness: the categorical-value kind VALUE is realised by a
SynonymTargetType constructor. -/
theorem synonym_target_four_kinds_witness :
    ∃ t : SynonymTargetType, t.value = "VALUE" :=
  synonym_target_four_kinds.2.2.1 "VALUE" (by decide)

/-- Claim C9: each of the seven slug-carrying entity kinds (tables,
columns, metrics, synonyms, context rules, categorical values, example
queries) gets one global unique index on slug plus a NOT NULL constraint in
migration.sql; row-wise, global slug uniqueness implies slug uniqueness
within any parent scope, and is strictly stronger than it. -/
theorem slug_unique_global_indexes :
    (∀ t ∈ slugEntityTables,
       DDLStmt.createUniqueIndex ("idx_" ++ t ++ "_slug") t ["slug"] ∈ migrationSql ∧
       DDLStmt.setNotNull t "slug" ∈ migrationSql) ∧
    slugEntityTables.length = 7 ∧
    (∀ rows : List (Nat × String), globallySlugUnique rows → scopedSlugUnique rows) ∧
    (∃ rows : List (Nat × String), scopedSlugUnique rows ∧ ¬ globallySlugUnique rows) := by
  refine ⟨by decide, by decide, ?_, ?_⟩
  · intro rows h
    exact h.imp (fun hne => fun _ => hne)
  · exact ⟨[(0, "a"), (1, "a")], by decide, by decide⟩

/-- Claim C9 witness: a globally slug-unique row set is slug-unique within
each parent scope. -/
theorem slug_unique_global_indexes_witness :
    scopedSlugUnique [(0, "x"), (1, "y")] :=
  slug_unique_global_indexes.2.2.1 [(0, "x"), (1, "y")] (by decide)

/-- Claim C10: migration_unique_constraints.sql places the unique index
idx_schema_edges_columns_unique on the ordered column pair of schema_edges;
in any store satisfying it, at most one edge exists per ordered pair of
columns and two distinct edges with the same source column and target
column cannot coexist. -/
theorem schema_edges_unique_column_pair (edges : List SchemaEdgeRow)
    (h : edgesSatisfyUniqueIndex edges) :
    (DDLStmt.createUniqueIndex "idx_schema_edges_columns_unique" "schema_edges"
       ["source_column_id", "target_column_id"] ∈ migrationUniqueConstraints) ∧
    (∀ s t : Nat,
       (edges.filter (fun e =>
         e.source_column_id == s && e.target_column_id == t)).length ≤ 1) ∧
    (∀ e1 ∈ edges, ∀ e2 ∈ edges,
       e1.source_column_id = e2.source_column_id →
       e1.target_column_id = e2.target_column_id → e1 = e2) := by
  refine ⟨by decide, ?_, ?_⟩
  · intro s t
    have hp : (edges.filter (fun e =>
        e.source_column_id == s && e.target_column_id == t)).Pairwise
          (fun a b => a.source_column_id = b.source_column_id →
            a.target_column_id = b.target_column_id → False) :=
      List.Pairwise.filter _ h
    match hl : edges.filter (fun e =>
        e.source_column_id == s && e.target_column_id == t) with
    | [] => simp [hl]
    | [a] => simp [hl]
    | a :: b :: rest =>
      exfalso
      rw [hl] at hp
      have hab := (List.pairwise_cons.mp hp).1 b (List.mem_cons_self b rest)
      have ha : a ∈ edges.filter (fun e =>
          e.source_column_id == s && e.target_column_id == t) := by
        rw [hl]; exact List.mem_cons_self a (b :: rest)
      have hb : b ∈ edges.filter (fun e =>
          e.source_column_id == s && e.target_column_id == t) := by
        rw [hl]; exact List.mem_cons_of_mem a (List.mem_cons_self b rest)
      have ha2 := List.of_mem_filter ha
      have hb2 := List.of_mem_filter hb
      simp only [Bool.and_eq_true, beq_iff_eq] at ha2 hb2
      exact hab (ha2.1.trans hb2.1.symm) (ha2.2.trans hb2.2.symm)
  · intro e1 h1 e2 h2 hs ht
    by_cases heq : e1 = e2
    · exact heq
    · have hsym : Symmetric (fun a b : SchemaEdgeRow =>
          a.source_column_id = b.source_column_id →
          a.target_column_id = b.target_column_id → False) := by
        intro a b hab hx hy
        exact hab hx.symm hy.symm
      exact ((h.forall hsym h1 h2 heq) hs ht).elim

/-- Claim C10 witness: in a concrete store satisfying the unique index, the
ordered pair (11, 21) selects at most one edge. -/
theorem schema_edges_unique_column_pair_witness :
    (([⟨1, 11, 21⟩, ⟨2, 11, 22⟩] : List SchemaEdgeRow).filter
      (fun e => e.source_column_id == 11 && e.target_column_id == 21)).length ≤ 1 :=
  (schema_edges_unique_column_pair [⟨1, 11, 21⟩, ⟨2, 11, 22⟩] (by decide)).2.1 11 21

/-- Claim C4: for every scope and every maxDepth, findPaths with equal,
resolvable source and target table slugs returns exactly one path, that
path has length 0, and totalPaths equals 1. -/
theorem find_paths_same_slug_trivial (store : GraphStore) (scope : Option Nat)
    (slug : String) (maxDepth : Nat) (t : TableNode)
    (h : resolveTable store scope slug = some t) :
    findPaths store scope slug slug maxDepth = .ok ⟨slug, slug, [[]], 1⟩ ∧
    ∀ res : PathResult, findPaths store scope slug slug maxDepth = .ok res →
      res.paths.length = 1 ∧ (∀ p ∈ res.paths, p.length = 0) ∧
      res.total_paths = 1 := by
  have hmain : findPaths store scope slug slug maxDepth = .ok ⟨slug, slug, [[]], 1⟩ := by
    unfold findPaths
    rw [h]
    simp
  refine ⟨hmain, ?_⟩
  intro res hres
  rw [hmain] at hres
  simp only [Except.ok.injEq] at hres
  subst hres
  refine ⟨rfl, ?_, rfl⟩
  intro p hp
  simp only [List.mem_singleton] at hp
  subst hp
  rfl

/-- Claim C4 witness: findPaths from orders to orders at depth 3 yields the
single empty path. -/
theorem find_paths_same_slug_trivial_witness :
    findPaths ⟨[⟨1, "orders", 5⟩], [], []⟩ none "orders" "orders" 3 =
      .ok ⟨"orders", "orders", [[]], 1⟩ :=
  (find_paths_same_slug_trivial ⟨[⟨1, "orders", 5⟩], [], []⟩ none "orders" 3
    ⟨1, "orders", 5⟩ (by decide)).1

/-- Claim C5: when the source or the target table slug does not resolve
within the given scope, findPaths fails with a NotFound error naming one of
the two slugs, and in particular never returns a successful (for example
empty) path list. -/
theorem find_paths_bad_slug_not_found (store : GraphStore) (scope : Option Nat)
    (srcSlug tgtSlug : String) (maxDepth : Nat)
    (h : resolveTable store scope srcSlug = none ∨
         resolveTable store scope tgtSlug = none) :
    (∃ badSlug, (badSlug = srcSlug ∨ badSlug = tgtSlug) ∧
       findPaths store scope srcSlug tgtSlug maxDepth =
         .error (.notFound badSlug)) ∧
    ∀ res : PathResult,
      findPaths store scope srcSlug tgtSlug maxDepth ≠ .ok res := by
  have hmain : ∃ badSlug, (badSlug = srcSlug ∨ badSlug = tgtSlug) ∧
      findPaths store scope srcSlug tgtSlug maxDepth =
        .error (.notFound badSlug) := by
    rcases h with h | h
    · refine ⟨srcSlug, Or.inl rfl, ?_⟩
      unfold findPaths
      rw [h]
    · cases hs : resolveTable store scope srcSlug with
      | none =>
        refine ⟨srcSlug, Or.inl rfl, ?_⟩
        unfold findPaths
        rw [hs]
      | some src =>
        refine ⟨tgtSlug, Or.inr rfl, ?_⟩
        unfold findPaths
        rw [hs, h]
  refine ⟨hmain, ?_⟩
  rcases hmain with ⟨b, _, hb⟩
  intro res hres
  rw [hb] at hres
  simp at hres

/-- Claim C5 witness: a slug absent from the store makes findPaths fail
with NotFound. -/
theorem find_paths_bad_slug_not_found_witness :
    ∃ badSlug, (badSlug = "missing" ∨ badSlug = "orders") ∧
      findPaths ⟨[⟨1, "orders", 5⟩], [], []⟩ none "missing" "orders" 3 =
        .error (.notFound badSlug) :=
  (find_paths_bad_slug_not_found ⟨[⟨1, "orders", 5⟩], [], []⟩ none
    "missing" "orders" 3 (Or.inl (by decide))).1

/-- Claim C3 counterexample: on an entity whose stored fingerprint already
equals the hash of its search text and whose embedding is present, two
consecutive ensureEmbedding calls invoke the external generator zero times,
not exactly once. -/
theorem ensure_embedding_twice_zero_calls_when_fresh :
    ensureEmbeddingTwiceCalls String.length (fun _ => .ok [1]) 4
      ⟨"orders", some [1], some 6⟩ = 0 ∧
    ¬ ensureEmbeddingTwiceCalls String.length (fun _ => .ok [1]) 4
      ⟨"orders", some [1], some 6⟩ = 1 := by decide

/-- Claim C3 (amended): a fresh fingerprint with a present embedding
returns the stored embedding unchanged with updated false and no generator
call; consequently, when the generator succeeds, two consecutive
ensureEmbedding calls on an entity with unchanged search text invoke the
external generator at most once — exactly once when the non-blank entity
did not already hold a current embedding, and zero times when it did. -/
theorem ensure_embedding_cache_skip (hash : String → Nat)
    (gen : String → Except Unit Embedding) (dims : Nat) (e : SEntity) :
    (e.embedding_hash = some (hash e.search_text) →
     e.embedding.isSome = true →
     ensureEmbedding hash gen dims e = ⟨e, e.embedding, false, 0⟩) ∧
    ((∃ v, gen e.search_text = .ok v) →
      ensureEmbeddingTwiceCalls hash gen dims e ≤ 1 ∧
      (blank e.search_text = false →
       ¬ (e.embedding_hash = some (hash e.search_text) ∧
          e.embedding.isSome = true) →
       ensureEmbeddingTwiceCalls hash gen dims e = 1)) := by
  constructor
  · intro h2 h3
    simp [ensureEmbedding, h2, h3]
  · rintro ⟨v, hv⟩
    by_cases h2 : (e.embedding_hash == some (hash e.search_text) &&
        e.embedding.isSome) = true
    · constructor
      · simp [ensureEmbeddingTwiceCalls, ensureEmbedding, h2]
      · intro _ hcon
        exfalso
        apply hcon
        simp only [Bool.and_eq_true, beq_iff_eq] at h2
        exact h2
    · by_cases hb : blank e.search_text = true
      · constructor
        · simp [ensureEmbeddingTwiceCalls, ensureEmbedding, h2, hb]
        · intro hb2 _
          rw [hb] at hb2
          cases hb2
      · constructor
        · simp [ensureEmbeddingTwiceCalls, ensureEmbedding, h2, hb, hv]
        · intro _ _
          simp [ensureEmbeddingTwiceCalls, ensureEmbedding, h2, hb, hv]

/-- Claim C3 witness: an entity with no stored embedding triggers exactly
one generator call across two consecutive ensureEmbedding calls. -/
theorem ensure_embedding_cache_skip_witness :
    ensureEmbeddingTwiceCalls String.length (fun _ => .ok [1]) 4
      ⟨"orders", none, none⟩ = 1 :=
  ((ensure_embedding_cache_skip String.length (fun _ => .ok [1]) 4
      ⟨"orders", none, none⟩).2 ⟨[1], rfl⟩).2 (by decide) (by decide)

/-- Claim C6: the style-guide reference implementation of
generate_embedding converts an external failure into the zero vector, so
the cache composed with it replaces the previously stored embedding with
the zero vector and updates the fingerprint; the following call then skips
(updated false, zero generator calls) instead of retrying — contradicting
the specified leave-intact-and-retry failure semantics. -/
theorem generate_embedding_failure_overwrites_state :
    generate_embedding (fun _ => .error ()) 3 "orders table" = zeroEmbedding 3 ∧
    (ensureEmbeddingWithService String.length (fun _ => .error ()) 3
       ⟨"orders table", some [5], some 0⟩).entity =
      ⟨"orders table", some (zeroEmbedding 3), some 12⟩ ∧
    (ensureEmbeddingWithService String.length (fun _ => .error ()) 3
       ⟨"orders table", some [5], some 0⟩).entity.embedding ≠ some [5] ∧
    (ensureEmbeddingWithService String.length (fun _ => .error ()) 3
       ((ensureEmbeddingWithService String.length (fun _ => .error ()) 3
          ⟨"orders table", some [5], some 0⟩).entity)).updated = false ∧
    (ensureEmbeddingWithService String.length (fun _ => .error ()) 3
       ((ensureEmbeddingWithService String.length (fun _ => .error ()) 3
          ⟨"orders table", some [5], some 0⟩).entity)).generatorCalls = 0 := by
  decide

end SemanticSql
